import Mathlib

/-!
Shallow embedding of `src/main.py` (YouTube morning-revival audio-analysis
job).  External I/O outcomes (feed fetch, Google-Sheet read, yt-dlp download,
Gemini analysis, LINE push) are supplied by an oracle record `Env`; the
orchestration logic of `process_channel` / `main` is translated control-flow
step by control-flow step, producing the list of externally visible side
effects (download attempt, LINE push, sheet append, staged-file removal)
in the order the program performs them.
-/

/-- Item produced by `get_latest_video`: the dict
`{"id": ..., "title": ..., "link": ..., "channel_title": ...}`. -/
structure Video where
  id : String
  title : String
  link : String
  channel_title : String
deriving DecidableEq

/-- The dedup store handle: `sheet.col_values(1)` is the first column. -/
structure Sheet where
  col1 : List String
deriving DecidableEq

/-- Oracle outcomes for one run of `process_channel` on one channel.
Each field is the result the corresponding external call would return. -/
structure Env where
  /-- result of `get_latest_video(channel_id)` (`None` on empty feed or
  any exception, which the function swallows). -/
  latest : Option Video
  /-- whether `GCP_SA_KEY` parsed to a value (truthy). -/
  gcp_sa_key : Bool
  /-- whether the `GOOGLE_SHEET_ID` env var is set (truthy). -/
  sheet_id_present : Bool
  /-- outcome of authorizing and reading the sheet inside
  `check_if_processed`: `none` means that block raised. -/
  sheet_read : Option Sheet
  /-- result of `download_audio(video['link'])`: `some path` is the staged
  mp3 file, `none` means the download failed (the function returns `None`). -/
  download_result : Option String
  /-- outcome of `analyze_audio_with_gemini`: `Except.error` means it raised
  (upload error, `FAILED` file state, or generation error); `Except.ok s`
  is the returned summary text. -/
  analyze_result : Except String String
  /-- whether `requests.post` inside `send_line_message` raises (network
  error).  A non-2xx response does not raise: the code never checks it. -/
  send_raises : Bool

/-- Externally visible side effects, in program order. -/
inductive Ev where
  /-- `download_audio` invoked for this link. -/
  | download : String → Ev
  /-- LINE push attempted with this (already truncated) message body. -/
  | notify : String → Ev
  /-- `sheet.append_row([id, title, status])` invoked. -/
  | commit : String → String → String → Ev
  /-- `os.remove` of the staged audio file. -/
  | removeFile : String → Ev
deriving DecidableEq

/-- `check_if_processed(video_id)` from `src/main.py` lines 53-60:
`if not GCP_SA_KEY or not SHEET_ID: return False, None`; then a `try` whose
body reads the sheet and returns `(video_id in sheet.col_values(1), sheet)`,
with `except: return False, None`. -/
def check_if_processed (env : Env) (video_id : String) : Bool × Option Sheet :=
  if !(env.gcp_sa_key && env.sheet_id_present) then (false, none)
  else
    match env.sheet_read with
    | none => (false, none)
    | some sheet => (sheet.col1.contains video_id, some sheet)

/-- Python character slicing `s[:n]`. -/
def py_slice (s : String) (n : Nat) : String := ⟨s.data.take n⟩

/-- `send_line_message(message)` from lines 129-133: posts a payload whose
text is `message[:4000]`.  The function's visible effect is the push attempt
with the truncated body. -/
def send_line_message (message : String) : Ev :=
  Ev.notify (py_slice message 4000)

/-- The `final_msg` f-string built at line 157. -/
def final_message (video : Video) (summary : String) : String :=
  "【" ++ video.channel_title ++ " (聽覺分析)】\n" ++ video.title ++ "\n"
    ++ video.link ++ "\n\n" ++ summary

/-- `process_channel(channel_id)` from lines 135-168, as the trace of side
effects it performs.  Control flow, in source order: fetch latest video
(return on `None`); dedup check (return on processed); `download_audio`
(return on failure); then `try:` analyze, send LINE message, and append the
marker row only `if sheet:`; `except:` swallow; `finally:` remove the staged
file if it exists (it does exist on every path reaching the `try`, since the
download succeeded and nothing else deletes it).  A raise inside
`sheet.append_row` would land after the append call itself, so it does not
change the trace. -/
def process_channel (env : Env) : List Ev :=
  match env.latest with
  | none => []
  | some video =>
    let checked := check_if_processed env video.id
    if checked.1 then []
    else
      Ev.download video.link ::
        match env.download_result with
        | none => []
        | some audio_file =>
          match env.analyze_result with
          | Except.error _ => [Ev.removeFile audio_file]
          | Except.ok summary =>
            send_line_message (final_message video summary) ::
              if env.send_raises then [Ev.removeFile audio_file]
              else
                match checked.2 with
                | some _ =>
                  [Ev.commit video.id video.title "Processed (Audio)",
                   Ev.removeFile audio_file]
                | none => [Ev.removeFile audio_file]

/-- One channel's processing in `main`'s loop: its oracle plus whether
`process_channel` itself raises an unhandled exception (e.g. the unguarded
`open(cookie_file, "w")` write at line 69 failing). -/
structure ChannelRun where
  env : Env
  crash : Option String

/-- One iteration of `main`'s loop body: `try: process_channel(cid)
except Exception as e: print(...)` — a crash is caught at this boundary and
becomes a logged error instead of propagating. -/
def run_channel (r : ChannelRun) : Except String (List Ev) :=
  match r.crash with
  | some e => Except.error e
  | none => Except.ok (process_channel r.env)

/-- The `for cid in CHANNEL_IDS` loop of `main` (lines 170-176): every
channel is processed in order, each outcome contained to its own slot. -/
def main_loop (rs : List ChannelRun) : List (Except String (List Ev)) :=
  rs.map run_channel

/-- Python `s.split(",")`: split on every comma, keeping empty pieces, so
`"".split(",") == [""]`. -/
def split_comma (s : List Char) : List (List Char) :=
  s.foldr
    (fun c acc =>
      match acc with
      | [] => if c = ',' then [[], []] else [[c]]
      | g :: gs => if c = ',' then [] :: g :: gs else (c :: g) :: gs)
    [[]]

/-- Python `s.strip()`: remove leading and trailing whitespace. -/
def py_strip (s : List Char) : List Char :=
  ((s.dropWhile Char.isWhitespace).reverse.dropWhile Char.isWhitespace).reverse

/-- `CHANNEL_IDS = [x.strip() for x in CHANNEL_IDS_RAW.split(",") if
x.strip()]` from lines 13-14 (unset env var defaults to `""`); a stripped
piece is kept only when truthy, i.e. non-empty. -/
def parse_channel_ids (raw : String) : List String :=
  (((split_comma raw.data).map py_strip).filter (fun x => x ≠ [])).map
    (fun cs => (⟨cs⟩ : String))

/-- The whole script run: parse the channel list, run the loop, and exit.
The script never calls `sys.exit` and `main` catches every per-channel
exception, so the process exit code is always 0; the result pairs that exit
code with the per-channel outcomes.  `f` supplies each channel's oracle. -/
def main_run (raw : String) (f : String → ChannelRun) :
    Nat × List (Except String (List Ev)) :=
  (0, main_loop ((parse_channel_ids raw).map f))

/-- Content-acquisition outcome kind (spec 3. DATA MODEL). -/
inductive ContentKind where
  | transcript
  | audio
deriving DecidableEq

/-- What content acquisition yields in the code: `process_channel` only ever
calls `download_audio` (line 148) — there is no transcript retrieval anywhere
in `src/main.py` — so a successful acquisition is always the staged audio. -/
def acquire_content (env : Env) : Option ContentKind :=
  match env.download_result with
  | some _ => some ContentKind.audio
  | none => none

/-- Event classifiers and trace measures. -/
def is_commit : Ev → Bool
  | Ev.commit _ _ _ => true
  | _ => false

def is_notify : Ev → Bool
  | Ev.notify _ => true
  | _ => false

def is_download : Ev → Bool
  | Ev.download _ => true
  | _ => false

def commitCount (t : List Ev) : Nat := t.countP is_commit

def notifyCount (t : List Ev) : Nat := t.countP is_notify

def downloadCount (t : List Ev) : Nat := t.countP is_download

/-- True when no commit event occurs before the first notify event. -/
def noCommitBeforeNotify : List Ev → Bool
  | [] => true
  | Ev.notify _ :: _ => true
  | Ev.commit _ _ _ :: _ => false
  | _ :: t => noCommitBeforeNotify t

/-! Concrete runs used as counterexamples and witnesses. -/

def vid_a : Video := ⟨"vidA", "Title A", "https://youtu.be/vidA", "Channel A"⟩

/-- A run where the sheet handle is unavailable (`GCP_SA_KEY` falsy) but the
download and analysis succeed and the LINE push returns. -/
def env_no_sheet : Env :=
  ⟨some vid_a, false, true, none, some "temp_audio.mp3", Except.ok "summary A", false⟩

def vid_b : Video := ⟨"vidB", "Title B", "https://youtu.be/vidB", "Channel B"⟩

/-- A run where `download_audio` returns `None`. -/
def env_dl_fail : Env :=
  ⟨some vid_b, true, true, some ⟨[]⟩, none, Except.ok "summary B", false⟩

def vid_c : Video := ⟨"vidC", "Title C", "https://youtu.be/vidC", "Channel C"⟩

def sheet_c : Sheet := ⟨["vidC", "older"]⟩

/-- A run whose video id is already in the sheet's first column. -/
def env_dup : Env :=
  ⟨some vid_c, true, true, some sheet_c, some "temp_audio.mp3", Except.ok "summary C", false⟩

def vid_d : Video := ⟨"vidD", "Title D", "LD", "Channel D"⟩

/-- A fully successful run: fresh video, sheet available, download, analysis
and push all succeed. -/
def env_audio : Env :=
  ⟨some vid_d, true, true, some ⟨[]⟩, some "temp_audio.mp3", Except.ok "SUM", false⟩

def vid_e : Video := ⟨"vidE", "Title E", "LE", "Channel E"⟩

/-- A run where the download succeeds but the Gemini analysis raises. -/
def env_staged : Env :=
  ⟨some vid_e, true, true, some ⟨[]⟩, some "temp_audio.mp3",
   Except.error "Audio processing failed in Gemini.", false⟩

/-- A 4001-character message, longer than the LINE limit. -/
def long_message : String := ⟨List.replicate 4001 'a'⟩

/-- A run with no service-account key and no sheet id. -/
def env_no_creds : Env := ⟨none, false, false, none, none, Except.ok "", false⟩

/-- A channel whose feed yields nothing; its loop iteration does no work. -/
def idle_run : ChannelRun :=
  ⟨⟨none, false, false, none, none, Except.ok "", false⟩, none⟩

/-- A channel whose `process_channel` raises an unhandled exception. -/
def crashed_run : ChannelRun :=
  ⟨⟨none, false, false, none, none, Except.ok "", false⟩, some "cookie write failed"⟩

def runs_two : List ChannelRun := [idle_run, idle_run]

def idle_oracle : String → ChannelRun := fun _ => idle_run

def vid_j : Video := ⟨"vidJ", "Title J", "LJ", "Channel J"⟩

/-- A run where reading the sheet raises, so no handle is returned, but the
rest of the pipeline succeeds. -/
def env_sheetless : Env :=
  ⟨some vid_j, true, true, none, some "temp_audio.mp3", Except.ok "SJ", false⟩

/-! Theorems. -/

theorem long_message_length : long_message.length = 4001 := by
  have h : long_message.length = (List.replicate 4001 'a').length := rfl
  rw [h, List.length_replicate]

/-- C1, counterexample: in the concrete run `env_no_sheet` the item reaches
the notification stage (the LINE push is performed once), yet the dedup-store
commit is invoked zero times — not exactly once — because
`check_if_processed` returned no sheet handle and the commit is guarded by
`if sheet:`. -/
theorem C1_counterexample :
    notifyCount (process_channel env_no_sheet) = 1 ∧
      commitCount (process_channel env_no_sheet) = 0 := by
  decide

/-- C1, amended: in every run, the dedup-store commit is invoked at most once
for the item, and no commit event ever occurs before the notification event. -/
theorem C1_amended_thm (env : Env) :
    commitCount (process_channel env) ≤ 1 ∧
      noCommitBeforeNotify (process_channel env) = true := by
  obtain ⟨latest, g, sid, sread, dl, ar, sr⟩ := env
  cases latest with
  | none => exact ⟨by simp [process_channel, commitCount], rfl⟩
  | some v =>
    simp only [process_channel]
    generalize check_if_processed ⟨some v, g, sid, sread, dl, ar, sr⟩ v.id = c
    obtain ⟨b, os⟩ := c
    cases b <;> cases os <;> cases dl <;> cases ar <;> cases sr <;>
      simp [commitCount, noCommitBeforeNotify, List.countP_cons, List.countP_nil,
        is_commit, send_line_message]

/-- C2: whenever the audio download fails (`download_audio` returns `None`)
or the analyzer raises, no marker row is appended to the sheet in that run,
so the item stays eligible for re-processing. -/
theorem C2_thm (env : Env)
    (h : env.download_result = none ∨ ∃ err, env.analyze_result = Except.error err) :
    commitCount (process_channel env) = 0 := by
  obtain ⟨latest, g, sid, sread, dl, ar, sr⟩ := env
  simp only at h
  cases latest with
  | none => rfl
  | some v =>
    simp only [process_channel]
    split
    · rfl
    · rcases h with h | ⟨err, h⟩
      · subst h
        simp [commitCount, List.countP_cons, List.countP_nil, is_commit]
      · subst h
        cases dl <;> simp [commitCount, List.countP_cons, List.countP_nil, is_commit]

theorem C2_witness : commitCount (process_channel env_dl_fail) = 0 :=
  C2_thm env_dl_fail (Or.inl rfl)

/-- C3: if the item's id already appears in the sheet's first column at
check time, the per-item pipeline performs no side effect at all: no
notification, no download, no second marker. -/
theorem C3_thm (env : Env) (v : Video) (s : Sheet)
    (h1 : env.latest = some v) (h2 : env.gcp_sa_key = true)
    (h3 : env.sheet_id_present = true) (h4 : env.sheet_read = some s)
    (h5 : v.id ∈ s.col1) :
    process_channel env = [] := by
  obtain ⟨latest, g, sid, sread, dl, ar, sr⟩ := env
  simp only at h1 h2 h3 h4
  subst h1 h2 h3 h4
  simp [process_channel, check_if_processed, h5]

theorem C3_witness : process_channel env_dup = [] :=
  C3_thm env_dup vid_c sheet_c rfl rfl rfl rfl (by decide)

/-- C4, counterexample: in the concrete successful run `env_audio`, content
acquisition yields kind audio — never transcript — and the very first
acquisition action of the pipeline is the audio download; the committed
marker records audio-based processing.  No transcript strategy is attempted
first: none exists in the program. -/
theorem C4_counterexample :
    acquire_content env_audio = some ContentKind.audio ∧
      some ContentKind.audio ≠ some ContentKind.transcript ∧
      (process_channel env_audio).head? = some (Ev.download "LD") ∧
      Ev.commit "vidD" "Title D" "Processed (Audio)" ∈ process_channel env_audio := by
  decide

/-- C4, amended: content acquisition consists solely of the audio-download
strategy: a successful acquisition never has kind transcript, and for every
not-yet-processed discovered item the first pipeline action is the audio
download. -/
theorem C4_amended_thm (env : Env) :
    acquire_content env ≠ some ContentKind.transcript ∧
      (∀ v, env.latest = some v → (check_if_processed env v.id).1 = false →
        (process_channel env).head? = some (Ev.download v.link)) := by
  constructor
  · cases hd : env.download_result <;> simp [acquire_content, hd]
  · intro v h1 h2
    obtain ⟨latest, g, sid, sread, dl, ar, sr⟩ := env
    simp only at h1 h2
    subst h1
    cases g <;> cases sid <;> cases sread <;>
      simp_all [process_channel, check_if_processed]

theorem C4_amended_witness :
    (process_channel env_audio).head? = some (Ev.download "LD") :=
  (C4_amended_thm env_audio).2 vid_d rfl (by decide)

/-- C5: whenever the audio download succeeds for a not-yet-processed item,
the trace of the analyze-and-notify span ends with the removal of the staged
file, on every exit path (analysis error, push error, commit or no commit). -/
theorem C5_thm (env : Env) (v : Video) (path : String)
    (h1 : env.latest = some v)
    (h2 : (check_if_processed env v.id).1 = false)
    (h3 : env.download_result = some path) :
    ∃ t, process_channel env = Ev.download v.link :: t ∧
      t.getLast? = some (Ev.removeFile path) := by
  obtain ⟨latest, g, sid, sread, dl, ar, sr⟩ := env
  simp only at h1 h2 h3
  subst h1 h3
  cases g <;> cases sid <;> cases sread <;> cases ar <;> cases sr <;>
    simp_all [process_channel, check_if_processed, send_line_message]

theorem C5_witness :
    ∃ t, process_channel env_staged = Ev.download "LE" :: t ∧
      t.getLast? = some (Ev.removeFile "temp_audio.mp3") :=
  C5_thm env_staged vid_e "temp_audio.mp3" rfl (by decide) rfl

/-- C6: the LINE push sends the input truncated to at most 4000 characters:
an input within the limit is sent unchanged, a longer input is sent truncated
to exactly 4000 characters, and the push is still made (the event is emitted
with the truncated body, never skipped). -/
theorem C6_thm (m : String) :
    send_line_message m = Ev.notify (py_slice m 4000) ∧
      (py_slice m 4000).length ≤ 4000 ∧
      (m.length ≤ 4000 → py_slice m 4000 = m) ∧
      (4000 < m.length → (py_slice m 4000).length = 4000) := by
  refine ⟨rfl, ?_, ?_, ?_⟩
  · show (m.data.take 4000).length ≤ 4000
    rw [List.length_take]
    omega
  · intro h
    show (⟨m.data.take 4000⟩ : String) = m
    rw [List.take_of_length_le h]
  · intro h
    show (m.data.take 4000).length = 4000
    rw [List.length_take]
    have hd : 4000 < m.data.length := h
    omega

theorem C6_witness : (py_slice long_message 4000).length = 4000 :=
  (C6_thm long_message).2.2.2 (by simp [long_message_length])

/-- C7: the processed-check fails open: if the service-account key or the
sheet id is absent, or reading the sheet raises, `check_if_processed`
returns `(false, none)` for every video id. -/
theorem C7_thm (env : Env) (vid : String)
    (h : env.gcp_sa_key = false ∨ env.sheet_id_present = false ∨
      env.sheet_read = none) :
    check_if_processed env vid = (false, none) := by
  obtain ⟨latest, g, sid, sread, dl, ar, sr⟩ := env
  rcases h with h | h | h <;> simp_all [check_if_processed]

theorem C7_witness : check_if_processed env_no_creds "anyVideoId" = (false, none) :=
  C7_thm env_no_creds "anyVideoId" (Or.inl rfl)

/-- C8: per-source isolation in `main`'s loop: replacing source k by one that
crashes changes no other source's outcome, every source gets exactly one
outcome, and each outcome is computed from that source's own run alone. -/
theorem C8_thm (rs : List ChannelRun) (k j : Nat) (r' : ChannelRun)
    (h : j ≠ k) :
    (main_loop (rs.set k r'))[j]? = (main_loop rs)[j]? ∧
      (main_loop rs).length = rs.length ∧
      (main_loop rs)[j]? = (rs[j]?).map run_channel := by
  refine ⟨?_, by simp [main_loop], by simp [main_loop, List.getElem?_map]⟩
  show ((rs.set k r').map run_channel)[j]? = (rs.map run_channel)[j]?
  rw [List.getElem?_map, List.getElem?_map, List.getElem?_set_ne (by omega)]

theorem C8_witness :
    (main_loop (runs_two.set 0 crashed_run))[1]? = (main_loop runs_two)[1]? :=
  (C8_thm runs_two 0 1 crashed_run (by decide)).1

/-- C9, counterexample: with the channel-id configuration empty, the parsed
source list is empty and the whole run exits with code 0 — not a non-zero
abort — performing no per-source work. -/
theorem C9_counterexample :
    parse_channel_ids "" = [] ∧ (main_run "" idle_oracle).1 = 0 ∧
      (main_run "" idle_oracle).2 = [] :=
  ⟨rfl, rfl, rfl⟩

/-- C9, amended: the process exit code is always 0, and when the configured
source list parses to empty the run does no per-source work at all (no source
polled, no notification sent) and still exits 0; there is no startup abort. -/
theorem C9_amended_thm (raw : String) (f : String → ChannelRun) :
    (main_run raw f).1 = 0 ∧
      (parse_channel_ids raw = [] → main_run raw f = (0, [])) := by
  refine ⟨rfl, fun h => ?_⟩
  simp [main_run, main_loop, h]

theorem C9_amended_witness : main_run "" idle_oracle = (0, []) :=
  (C9_amended_thm "" idle_oracle).2 rfl

/-- C10: when the dedup check returns no sheet handle but download, analysis
and push all succeed, the run still downloads once, notifies once, and
commits no marker — so the item stays unmarked for future runs. -/
theorem C10_thm (env : Env) (v : Video) (path summary : String)
    (h1 : env.latest = some v)
    (h2 : (check_if_processed env v.id).2 = none)
    (h3 : env.download_result = some path)
    (h4 : env.analyze_result = Except.ok summary)
    (h5 : env.send_raises = false) :
    downloadCount (process_channel env) = 1 ∧
      notifyCount (process_channel env) = 1 ∧
      commitCount (process_channel env) = 0 := by
  obtain ⟨latest, g, sid, sread, dl, ar, sr⟩ := env
  simp only at h1 h2 h3 h4 h5
  subst h1 h3 h4 h5
  cases g <;> cases sid <;> cases sread <;>
    simp_all [check_if_processed, process_channel, downloadCount, notifyCount,
      commitCount, List.countP_cons, List.countP_nil, is_commit, is_notify,
      is_download, send_line_message]

theorem C10_witness :
    downloadCount (process_channel env_sheetless) = 1 ∧
      notifyCount (process_channel env_sheetless) = 1 ∧
      commitCount (process_channel env_sheetless) = 0 :=
  C10_thm env_sheetless vid_j "temp_audio.mp3" "SJ" rfl rfl rfl rfl rfl
